import Mathlib

/-!
Verification of the client-side risk-aggregation and map-interaction pipeline
of the SmartFlood Mumbai frontend (React application under
`flood-frontend/src`).  The JavaScript functions are shallowly embedded as
Lean definitions; dynamic JS values are modelled by the `JsVal` inductive,
JS numbers (which may be `NaN`) by `JsNum`, and the implicit wall clock is
passed as an explicit `now` argument wherever the source calls
`new Date().toISOString()`.
-/

namespace SmartFlood

/-- Model of a JavaScript number: either `NaN` or an exact value.
Other floating-point artefacts (infinities, rounding) are not exercised by
the embedded code paths. -/
inductive JsNum where
  | nan : JsNum
  | val : ℚ → JsNum
deriving DecidableEq, Repr

/-- Model of a JavaScript value as far as the embedded code inspects it:
`undefined`, `null`, booleans, numbers, strings, arrays and (string-keyed)
objects. -/
inductive JsVal where
  | vUndefined : JsVal
  | vNull : JsVal
  | vBool : Bool → JsVal
  | vNum : JsNum → JsVal
  | vStr : String → JsVal
  | vArr : List JsVal → JsVal
  | vObj : List (String × JsVal) → JsVal

namespace JsVal

/-- Shorthand for a numeric JS value. -/
def jn (q : ℚ) : JsVal := .vNum (.val q)

/-- Whether a JS value is `undefined`. -/
def isUndefined : JsVal → Bool
  | .vUndefined => true
  | _ => false

/-- Whether a JS value is `null`. -/
def isNull : JsVal → Bool
  | .vNull => true
  | _ => false

/-- JavaScript truthiness: `undefined`, `null`, `false`, `0`, `NaN` and the
empty string are falsy; every other value (including `[]` and `{}`) is
truthy. -/
def truthy : JsVal → Bool
  | .vUndefined => false
  | .vNull => false
  | .vBool b => b
  | .vNum .nan => false
  | .vNum (.val q) => q ≠ 0
  | .vStr s => s ≠ ""
  | .vArr _ => true
  | .vObj _ => true

/-- The JavaScript `||` operator: the left operand if truthy, otherwise the
right operand. -/
def jsOr (a b : JsVal) : JsVal := if a.truthy then a else b

/-- Property access `v.k` (and the optional chain `v?.k`, which the source
uses exactly where the base may be nullish): a lookup in an object, and
`undefined` on every non-object (property reads on boxed primitives yield
`undefined`; reading a property of `null`/`undefined` would throw in JS,
which the embedded flows always guard against, so the total value
`undefined` is never observed from an unguarded nullish read). -/
def getProp : JsVal → String → JsVal
  | .vObj fields, k => (fields.lookup k).getD .vUndefined
  | _, _ => .vUndefined

/-- Strict equality `v === n` of a JS value against a number literal: true
exactly when `v` is that (non-`NaN`) number. -/
def jsEqNum (v : JsVal) (q : ℚ) : Bool :=
  match v with
  | .vNum (.val x) => x = q
  | _ => false

/-- Parse the digits of a string as a natural number; `none` on any
non-digit. -/
def digitsToNat : List Char → Option ℕ
  | [] => some 0
  | c :: cs =>
    if c.isDigit then
      (digitsToNat cs).map (fun n => (c.toNat - 48) * 10 ^ cs.length + n)
    else none

/-- Numeric string conversion for the core decimal grammar
(`-?digits(.digits)?`): the empty string converts to `0`, anything that is
not a plain decimal to `NaN`.  (Exponents, hex literals and surrounding
whitespace are not exercised by the embedded code.) -/
def parseDecimal (s : String) : JsNum :=
  if s = "" then .val 0 else
  let (neg, body) :=
    match s.data with
    | '-' :: rest => (true, rest)
    | l => (false, l)
  let intPart := body.takeWhile (fun c => c ≠ '.')
  let rest := body.dropWhile (fun c => c ≠ '.')
  let fracPart := rest.drop 1
  if body = [] then .nan else
  if rest ≠ [] ∧ rest.length = 1 ∧ intPart = [] then .nan else
  match digitsToNat intPart, digitsToNat fracPart with
  | some i, some f =>
    let q : ℚ := (i : ℚ) + (f : ℚ) / (10 ^ fracPart.length : ℚ)
    .val (if neg then -q else q)
  | _, _ => .nan

/-- The `ToNumber` coercion as used by the embedded comparisons:
numbers pass through, booleans become `0`/`1`, `null` becomes `0`,
`undefined` becomes `NaN`, strings are parsed as decimals; object/array
to-primitive coercion is not modelled (no embedded comparison reaches it)
and yields `NaN`. -/
def toNumber : JsVal → JsNum
  | .vNum n => n
  | .vBool b => .val (if b then 1 else 0)
  | .vNull => .val 0
  | .vUndefined => .nan
  | .vStr s => parseDecimal s
  | .vArr _ => .nan
  | .vObj _ => .nan

/-- The comparison `v > q` against a numeric literal (false whenever the
coerced value is `NaN`). -/
def jsGtQ (v : JsVal) (q : ℚ) : Bool :=
  match v.toNumber with
  | .nan => false
  | .val x => q < x

end JsVal

open JsVal

/-! ## Risk Normalizer: `formatFloodPrediction` (api.js) -/

/-- The record returned by `formatFloodPrediction` in `api.js`. -/
structure Formatted where
  wardCode : JsVal
  wardName : JsVal
  riskZone : JsVal
  riskLevel : JsVal
  willFlood : JsVal
  riskProbabilities : JsVal
  bayesianProbability : JsVal
  highRisk : JsVal
  confidence : JsVal
  timestamp : JsVal
  weatherData : JsVal

/-- The record built in the return statement of `formatFloodPrediction`
(api.js lines 698-710), for a truthy `prediction`. -/
def formatRecord (prediction : JsVal) (now : String) : Formatted :=
  let randomForest := jsOr (prediction.getProp "random_forest") (.vObj [])
  let combinedAssessment :=
    jsOr (prediction.getProp "combined_assessment") (.vObj [])
  let bayesianProbability :=
    jsOr (prediction.getProp "bayesian_probability") (jn 0)
  let wardRiskZone :=
    jsOr (prediction.getProp "ward_risk_zone") (.vStr "Unknown")
  { wardCode := prediction.getProp "ward_code"
    wardName := prediction.getProp "ward_name"
    riskZone := wardRiskZone
    riskLevel := jsOr (randomForest.getProp "flood_risk_level") (jn 0)
    willFlood := jsOr (randomForest.getProp "will_flood") (.vBool false)
    riskProbabilities :=
      jsOr (randomForest.getProp "risk_probabilities") (.vObj [])
    bayesianProbability := bayesianProbability
    highRisk := jsOr (combinedAssessment.getProp "high_risk") (.vBool false)
    confidence :=
      jsOr (combinedAssessment.getProp "confidence") (.vStr "Medium")
    timestamp := jsOr (prediction.getProp "timestamp") (.vStr now)
    weatherData := jsOr (prediction.getProp "weather_data") (.vObj []) }

/-- Embedding of `formatFloodPrediction` (api.js lines 689-711).  The
source returns `null` for a falsy argument, hence the `Option`; `now`
stands for `new Date().toISOString()`, the only impure expression in the
function. -/
def formatFloodPrediction (prediction : JsVal) (now : String) :
    Option Formatted :=
  if ¬ prediction.truthy then none
  else some (formatRecord prediction now)

/-- A JS value is defined and non-null when it is neither `undefined` nor
`null`. -/
def definedNonNull (v : JsVal) : Prop :=
  v.isUndefined = false ∧ v.isNull = false

instance (v : JsVal) : Decidable (definedNonNull v) := by
  unfold definedNonNull; infer_instance

theorem truthy_definedNonNull {v : JsVal} (h : v.truthy = true) :
    definedNonNull v := by
  cases v <;> simp_all [JsVal.truthy, definedNonNull, JsVal.isUndefined,
    JsVal.isNull]

theorem jsOr_definedNonNull {v d : JsVal} (hd : definedNonNull d) :
    definedNonNull (jsOr v d) := by
  unfold jsOr
  by_cases h : v.truthy = true
  · simpa [h] using truthy_definedNonNull h
  · simp_all

/-! ## Risk levels and colors (api.js utility functions) -/

/-- Embedding of `getRiskLevel` (api.js lines 510-515): risk category from
a flood probability, with inclusive lower bounds 0.7 / 0.3 / 0.1. -/
def getRiskLevel (probability : ℚ) : String :=
  if probability ≥ 7/10 then "Critical"
  else if probability ≥ 3/10 then "High"
  else if probability ≥ 1/10 then "Medium"
  else "Low"

/-- Model of `toLowerCase()` on the character list. -/
def strToLower (s : String) : String := String.mk (s.data.map Char.toLower)

/-- Embedding of `getRiskColor` (api.js lines 499-507); `none` models an
`undefined`/`null` argument short-circuited by `?.`. -/
def getRiskColor (riskLevel : Option String) : String :=
  match riskLevel with
  | none => "#CCCCCC"
  | some s =>
    match strToLower s with
    | "critical" => "#FF0000"
    | "high" => "#FF6600"
    | "medium" => "#FFFF00"
    | "low" => "#00FF00"
    | _ => "#CCCCCC"

/-- Embedding of `getFloodRiskColor` (api.js lines 714-721): color from the
numeric Random-Forest risk level (strict `===` matching). -/
def getFloodRiskColor (riskLevel : JsVal) : String :=
  if jsEqNum riskLevel 2 then "#FF0000"
  else if jsEqNum riskLevel 1 then "#FF6600"
  else if jsEqNum riskLevel 0 then "#00FF00"
  else "#CCCCCC"

/-! ## Map Renderer: MapComponent.js -/

/-- Embedding of the `getRiskColor` defined locally in MapComponent.js
(lines 370-383), used for the ward fill color. -/
def mcGetRiskColor (riskLevel : Option String) : String :=
  match riskLevel with
  | none => "#4285f4"
  | some s =>
    match strToLower s with
    | "low" => "#34a853"
    | "medium" => "#fbbc04"
    | "high" => "#ea4335"
    | "critical" => "#ea4335"
    | _ => "#4285f4"

/-- The fields of the `enhancedPrediction` object built by the MapComponent
click handler (MapComponent.js lines 497-543) that the verified claims
read.  Purely presentational fields (recommendation strings, `wardDetails`,
`cluster_analysis`, the `random_forest.flood_probability` maximum and
`models_used`) are omitted. -/
structure EnhancedPrediction where
  floodRiskProbability : JsVal
  riskLevel : String
  confidence : JsVal
  willFlood : JsVal
  wardRiskZone : JsVal
  combinedRiskLevel : String
  combinedFloodProbability : JsVal
  bayesianFloodProbability : JsVal
  bayesianRiskLevel : String

/-- Construction of `enhancedPrediction` from the raw backend response
(MapComponent.js lines 497-543).  `riskLevel` comes from
`random_forest?.flood_risk_level === 2 ? 'high' : === 1 ? 'medium' :
'low'`; `bayesianRiskLevel` from
`(bayesian_probability || 0) > 0.7 ? 'High' : > 0.3 ? 'Medium' : 'Low'`
(strict `>` comparisons). -/
def buildEnhancedPrediction (prediction : JsVal) : EnhancedPrediction :=
  let rf := prediction.getProp "random_forest"
  let ca := prediction.getProp "combined_assessment"
  let bp := prediction.getProp "bayesian_probability"
  { floodRiskProbability := bp
    riskLevel :=
      if jsEqNum (rf.getProp "flood_risk_level") 2 then "high"
      else if jsEqNum (rf.getProp "flood_risk_level") 1 then "medium"
      else "low"
    confidence := jsOr (ca.getProp "confidence") (.vStr "Medium")
    willFlood := jsOr (rf.getProp "will_flood") (.vBool false)
    wardRiskZone := prediction.getProp "ward_risk_zone"
    combinedRiskLevel :=
      if (ca.getProp "high_risk").truthy then "High" else "Low"
    combinedFloodProbability := jsOr bp (jn 0)
    bayesianFloodProbability := jsOr bp (jn 0)
    bayesianRiskLevel :=
      if jsGtQ (jsOr bp (jn 0)) (7/10) then "High"
      else if jsGtQ (jsOr bp (jn 0)) (3/10) then "Medium"
      else "Low" }

/-- The fill color the GeoJSON style function assigns to a ward
(MapComponent.js lines 386-403): the local risk color of the committed
entry, or the light-gray unanalyzed fill. -/
def wardFillColor (entry : Option EnhancedPrediction) : String :=
  match entry with
  | some p => mcGetRiskColor (some p.riskLevel)
  | none => "#f8f9fa"

/-- JavaScript division of an exact sum by a length: division by `0`
produces `NaN`. -/
def jsDiv (x : ℚ) (n : ℕ) : JsNum :=
  if n = 0 then .nan else .val (x / n)

/-- Embedding of `calculateCentroid` (MapComponent.js lines 406-422).
`coordinates` is the GeoJSON ring list (`none` models an
absent/`undefined` coordinates array; the head of the list is the outer
ring of `(longitude, latitude)` pairs).  The source returns `null` when
`coordinates` or `coordinates[0]` is falsy, and otherwise the
componentwise sums of the outer ring divided by its length. -/
def calculateCentroid (coordinates : Option (List (List (ℚ × ℚ)))) :
    Option (JsNum × JsNum) :=
  match coordinates with
  | none => none
  | some [] => none
  | some (ring :: _) =>
    let x := (ring.map Prod.fst).sum
    let y := (ring.map Prod.snd).sum
    some (jsDiv x ring.length, jsDiv y ring.length)

/-- The click handler reads `coordinates.latitude` / `coordinates.longitude`
from the `calculateCentroid` result with no null check (MapComponent.js
lines 461-479); on a `null` centroid this is a `TypeError`. -/
def clickCentroidAccess (coordinates : Option (List (List (ℚ × ℚ)))) :
    Except String (JsNum × JsNum) :=
  match calculateCentroid coordinates with
  | none => .error "TypeError: Cannot read properties of null"
  | some c => .ok c

/-! ## HTTP requests issued on ward selection -/

/-- An HTTP request, identified by method and path. -/
inductive HttpReq where
  | post (path : String)
  | get (path : String)
deriving DecidableEq, Repr

/-- Uppercase hexadecimal digit. -/
def hexDigitChar (n : ℕ) : Char :=
  if n < 10 then Char.ofNat (48 + n) else Char.ofNat (55 + n)

/-- Percent-encoding of one ASCII character. -/
def percentEncodeChar (c : Char) : String :=
  "%" ++ String.mk [hexDigitChar (c.toNat / 16 % 16), hexDigitChar (c.toNat % 16)]

/-- Model of `encodeURIComponent` for the ASCII strings that occur as ward
codes: alphanumerics and the unreserved marks pass through, everything
else is percent-encoded (the apostrophe member of the unreserved set is
not listed; no ward code contains it). -/
def encodeURIComponent (s : String) : String :=
  String.join (s.data.map (fun c =>
    if c.isAlphanum ∨ c ∈ ['-', '_', '.', '!', '~', '*', '(', ')'] then
      String.singleton c
    else percentEncodeChar c))

/-- Request issued by `predictSingleWard` (api.js line 316): the ward id is
interpolated raw into the path. -/
def predictSingleWardReq (wardId : String) : HttpReq :=
  .post ("/predict/ward/" ++ wardId)

/-- Request issued by `getWardFloodPrediction` (api.js lines 570-573): the
ward code is passed through `encodeURIComponent`. -/
def getWardFloodPredictionReq (wardCode : String) : HttpReq :=
  .post ("/predict/ward/" ++ encodeURIComponent wardCode)

/-- Request issued by `getWardCurrentWeather` (api.js lines 637-640). -/
def getWardCurrentWeatherReq (wardCode : String) : HttpReq :=
  .get ("/weather/current/" ++ wardCode)

/-- Requests started synchronously by the MapComponent click handler for a
clicked ward (MapComponent.js line 490: `predictSingleWard`). -/
def mapClickRequests (wardCode : String) : List HttpReq :=
  [predictSingleWardReq wardCode]

/-- Requests started by `loadWardPrediction` in FloodPredictionPanel.js
(lines 24-50): `Promise.all` of the ward prediction and the current
weather for the selected ward. -/
def panelLoadRequests (selectedWard : String) : List HttpReq :=
  [getWardFloodPredictionReq selectedWard, getWardCurrentWeatherReq selectedWard]

/-- Requests started by `fetchLiveWeatherPrediction` in
WardWeatherDetails.js (lines 11-22): `Promise.all` of the current weather
and the ward prediction for the selected ward. -/
def wardWeatherDetailsRequests (selectedWard : String) : List HttpReq :=
  [getWardCurrentWeatherReq selectedWard, getWardFloodPredictionReq selectedWard]

/-- All requests triggered by selecting a ward on the map in the Dashboard
composition: the click handler fetches via `predictSingleWard`, and the
`setSelectedWard` update fires the `useEffect` fetches of
FloodPredictionPanel and WardWeatherDetails (Dashboard.js lines 414-450;
both components receive the ward name the map stored as the selection). -/
def selectWardRequests (wardName wardCode : String) : List HttpReq :=
  mapClickRequests wardCode ++ panelLoadRequests wardName ++
    wardWeatherDetailsRequests wardName

/-- Whether `pre` starts the string `s` (computed on the character
lists). -/
def strStartsWith (s pre : String) : Bool := pre.data.isPrefixOf s.data

/-- Whether a request targets the ward-prediction endpoint
`POST /predict/ward/...`. -/
def isWardPredictionReq : HttpReq → Bool
  | .post p => strStartsWith p "/predict/ward/"
  | _ => false

/-- Whether a request targets the current-weather endpoint
`GET /weather/current/...`. -/
def isWeatherCurrentReq : HttpReq → Bool
  | .get p => strStartsWith p "/weather/current/"
  | _ => false

/-! ## API Client error translation (api.js catch blocks) -/

/-- The axios failure reaching a catch block: a server response with a
status and `data.detail` / `data.message` fields (the empty string models
an absent/falsy field), a request that got no response, or a setup
failure with a message. -/
inductive AxiosFailure where
  | response (status : ℕ) (detail : String) (message : String)
  | request
  | setup (msg : String)
deriving DecidableEq, Repr

/-- What a catch block throws to the caller: a translated `Error` with a
new message, or the original failure rethrown raw. -/
inductive ThrownError where
  | translated (msg : String)
  | raw (e : AxiosFailure)
deriving DecidableEq, Repr

/-- Whether the thrown error was translated by the client. -/
def ThrownError.isTranslated : ThrownError → Bool
  | .translated _ => true
  | .raw _ => false

/-- The `error.response.data?.detail || error.response.data?.message ||
"Unknown server error"` chain. -/
def serverDetailMsg (detail message : String) : String :=
  if detail ≠ "" then detail
  else if message ≠ "" then message
  else "Unknown server error"

/-- Embedding of the catch block of `predictFloodRisk` (api.js lines
61-91): every failure shape is translated. -/
def predictFloodRiskCatch : AxiosFailure → ThrownError
  | .response status detail message =>
    if status = 503 then
      .translated "Model not loaded on server. Please check server logs."
    else if status = 400 then
      .translated ("Invalid request: " ++ serverDetailMsg detail message)
    else
      .translated ("Server error (" ++ toString status ++ "): " ++
        serverDetailMsg detail message)
  | .request =>
    .translated
      "Cannot connect to backend server. Make sure your FastAPI server is running on http://127.0.0.1:8000"
  | .setup m => .translated ("Request failed: " ++ m)

/-- Embedding of the catch block of `getWardFloodPrediction` (api.js lines
575-586): statuses 503/404/500 are translated, every other failure is
rethrown raw (`throw error`). -/
def getWardFloodPredictionCatch (wardCode : String) :
    AxiosFailure → ThrownError
  | .response status detail message =>
    if status = 503 then
      .translated
        "Flood prediction models not initialized. Please check server status."
    else if status = 404 then
      .translated ("Weather data not available for ward " ++ wardCode)
    else if status = 500 then
      .translated ("Prediction error for ward " ++ wardCode ++
        ". Please try again.")
    else .raw (.response status detail message)
  | .request => .raw .request
  | .setup m => .raw (.setup m)

/-- Embedding of the catch block of `getAllWardsFloodPrediction` (api.js
lines 594-601): only status 503 is translated. -/
def getAllWardsFloodPredictionCatch : AxiosFailure → ThrownError
  | .response status detail message =>
    if status = 503 then
      .translated
        "Flood prediction models not initialized. Please check server status."
    else .raw (.response status detail message)
  | .request => .raw .request
  | .setup m => .raw (.setup m)

/-! ## Input validation of the 15-value rainfall series -/

/-- The validation message thrown for a wrong-shape rainfall series. -/
def rainfallLengthMsg : String :=
  "Rainfall data must be an array of exactly 15 values"

/-- The check `Array.isArray(rainfallData) && rainfallData.length === 15`
(negated in the source as the throw condition). -/
def isRainfallArray15 (v : JsVal) : Bool :=
  match v with
  | .vArr xs => xs.length = 15
  | _ => false

/-- Pre-network phase of `predictFloodRisk` (api.js lines 50-92): on a
wrong-shape series the validation error is thrown (and re-wrapped by the
final catch branch as `Request failed: ...`) with no request issued;
otherwise the single `POST /predict` request is issued. -/
def predictFloodRiskStart (rainfallData : JsVal) : Except String HttpReq :=
  if isRainfallArray15 rainfallData then .ok (.post "/predict")
  else .error ("Request failed: " ++ rainfallLengthMsg)

/-- Pre-network phase of `predictFloodRiskSimple` (api.js lines 95-107):
its catch rethrows the validation error unwrapped. -/
def predictFloodRiskSimpleStart (rainfallData : JsVal) :
    Except String HttpReq :=
  if isRainfallArray15 rainfallData then .ok (.post "/predict-simple")
  else .error rainfallLengthMsg

/-- Pre-network phase of `predictFloodRiskWithWeather` (api.js lines
204-253): the series is validated only inside `if (rainfallData)`, so a
falsy argument (including `0`, `""`, `false`, `NaN`) skips validation and
the request is issued without rainfall data. -/
def predictFloodRiskWithWeatherStart (rainfallData : JsVal) :
    Except String HttpReq :=
  if rainfallData.truthy then
    if isRainfallArray15 rainfallData then .ok (.post "/predict-with-weather")
    else .error ("Request failed: " ++ rainfallLengthMsg)
  else .ok (.post "/predict-with-weather")

/-- The requests issued by a pre-network phase: one on success, none when
validation threw. -/
def startRequests (r : Except String HttpReq) : List HttpReq :=
  match r with
  | .ok q => [q]
  | .error _ => []

/-! ## Selection and commit state machine (MapComponent click path) -/

/-- The state the MapComponent click path mutates: the selected ward, the
ward-to-prediction map and the loading flag (App.js lines 11-13 hold the
state; MapComponent.js mutates it through the setters). -/
structure AppState where
  selectedWard : Option String
  predictions : String → Option EnhancedPrediction
  loading : Bool

/-- Startup state: nothing selected, empty prediction map (App.js line
11: `useState({})`). -/
def initialAppState : AppState :=
  { selectedWard := none, predictions := fun _ => none, loading := false }

/-- Events of the click path.  `click w` is the synchronous part of the
handler for ward `w` (runs before the `await`); `resolveClick w raw` is
the continuation running when the `predictSingleWard` promise started by
the click on `w` fulfills with `raw`; `rejectClick` when it rejects. -/
inductive AppEvent where
  | click (wardName : String)
  | resolveClick (wardName : String) (raw : JsVal)
  | rejectClick (wardName : String) (errMsg : String)

/-- One event-handling turn of the click path (MapComponent.js lines
456-558).  The synchronous part sets the selection and the loading flag;
the continuation closes over its own `wardName` and commits
`setPredictions(prev => ({...prev, [wardName]: enhancedPrediction}))`
unconditionally — the source compares no request identifier against the
current selection before committing. -/
def appStep (s : AppState) : AppEvent → AppState
  | .click w => { s with selectedWard := some w, loading := true }
  | .resolveClick w raw =>
    { s with
        predictions := fun k =>
          if k = w then some (buildEnhancedPrediction raw) else s.predictions k
        loading := false }
  | .rejectClick _ _ => { s with loading := false }

/-- Run a sequence of events from startup. -/
def runApp (events : List AppEvent) : AppState :=
  events.foldl appStep initialAppState

/-! ## Operations writing the region-to-prediction maps -/

/-- Merge commit `setPredictions(prev => ({...prev, [w]: v}))`, used by the
MapComponent click handler (MapComponent.js line 548) and by the
Dashboard `onPredictionUpdate` callback (Dashboard.js lines 444-449). -/
def commitWardPrediction {V : Type} (w : String) (v : V)
    (m : String → Option V) : String → Option V :=
  fun k => if k = w then some v else m k

/-- Whole-map replacement `setPredictions(formattedPredictions)` performed
by `loadAllPredictions` in App.js (line 55), and by the WardMapDemo bulk
prediction (WardMapDemo.js line 101) on its own map. -/
def replacePredictions {V : Type} (fresh : String → Option V)
    (_old : String → Option V) : String → Option V :=
  fresh

/-- The Clear Results button of WardMapDemo (WardMapDemo.js line 155):
`setWardPredictions({})`. -/
def clearResults {V : Type} (_old : String → Option V) :
    String → Option V :=
  fun _ => none

/-! ## Aggregate Stats View: calculateStats (StatsCards.js) -/

/-- The fields of a stored prediction record that `calculateStats` reads:
the numeric Random-Forest risk level, the flood flag and the Bayesian
probability (StatsCards.js lines 14-37). -/
structure StatsEntry where
  riskLevel : ℤ
  willFlood : Bool
  bayesianProbability : ℚ
deriving DecidableEq, Repr

/-- The record returned by `calculateStats`; `avgBayesianProb` is kept as
the exact mean (the source additionally formats it as a percentage string
for display). -/
structure WardStats where
  totalWards : ℕ
  lowRisk : ℕ
  mediumRisk : ℕ
  highRisk : ℕ
  floodExpected : ℕ
  avgBayesianProb : ℚ
deriving DecidableEq, Repr

/-- Accumulator of the `forEach` loop in `calculateStats`. -/
structure StatsAcc where
  lowRisk : ℕ
  mediumRisk : ℕ
  highRisk : ℕ
  floodExpected : ℕ
  probSum : ℚ
deriving DecidableEq, Repr

/-- One iteration of the `forEach` loop (StatsCards.js lines 14-37): the
switch counts risk levels `0`/`1`/`2` and silently drops every other
level (`default: break`); the flood flag and the probability sum are
accumulated. -/
def statsStep (a : StatsAcc) (p : StatsEntry) : StatsAcc :=
  let a :=
    if p.riskLevel = 0 then { a with lowRisk := a.lowRisk + 1 }
    else if p.riskLevel = 1 then { a with mediumRisk := a.mediumRisk + 1 }
    else if p.riskLevel = 2 then { a with highRisk := a.highRisk + 1 }
    else a
  let a := if p.willFlood then { a with floodExpected := a.floodExpected + 1 } else a
  { a with probSum := a.probSum + p.bayesianProbability }

/-- Embedding of `calculateStats` (StatsCards.js lines 6-50) over the
entries of the predictions map. -/
def calculateStats (entries : List StatsEntry) : WardStats :=
  let totalWards := entries.length
  let acc := entries.foldl statsStep ⟨0, 0, 0, 0, 0⟩
  { totalWards := totalWards
    lowRisk := acc.lowRisk
    mediumRisk := acc.mediumRisk
    highRisk := acc.highRisk
    floodExpected := acc.floodExpected
    avgBayesianProb := if totalWards > 0 then acc.probSum / totalWards else 0 }

/-! ## Scenario constants -/

/-- The backend response of the end-to-end scenario: tree-ensemble
`flood_risk_level = 2` and probabilistic-network probability `0.82`. -/
def scenResponse : JsVal :=
  .vObj [("ward_code", .vStr "H/E"), ("ward_name", .vStr "Bandra East"),
    ("random_forest", .vObj [("flood_risk_level", jn 2)]),
    ("bayesian_probability", jn (41/50)),
    ("timestamp", .vStr "2024-07-01T10:00:00Z")]

/-- Rapid re-selection trace: ward A is clicked, ward B is clicked before
A's fetch resolves, then A's fetch resolves. -/
def staleTrace : List AppEvent :=
  [.click "Colaba", .click "Bandra West",
   .resolveClick "Colaba" (.vObj [("bayesian_probability", jn (1/2))])]

/-! # Theorems -/

/-- C2 (counterexample): for the raw input `null` the normalization
function returns `null` itself, not a record with every field defined, so
the claim fails on null/undefined inputs. -/
theorem formatFloodPrediction_null_returns_null :
    formatFloodPrediction .vNull "2024-06-01T00:00:00Z" = none :=
  rfl

/-- C2 (amended): for every truthy raw prediction input the normalization
function returns a record in which the risk zone, risk level, willFlood,
per-model probabilities, Bayesian probability, high-risk flag, confidence,
timestamp and weather data are all defined and non-null; for falsy inputs
(null/undefined) it returns null rather than a record. -/
theorem formatFloodPrediction_total_on_truthy (p : JsVal) (now : String)
    (h : p.truthy = true) :
    ∃ r, formatFloodPrediction p now = some r ∧
      definedNonNull r.riskZone ∧ definedNonNull r.riskLevel ∧
      definedNonNull r.willFlood ∧ definedNonNull r.riskProbabilities ∧
      definedNonNull r.bayesianProbability ∧ definedNonNull r.highRisk ∧
      definedNonNull r.confidence ∧ definedNonNull r.timestamp ∧
      definedNonNull r.weatherData := by
  refine ⟨formatRecord p now, ?_, ?_, ?_, ?_, ?_, ?_, ?_, ?_, ?_, ?_⟩
  · unfold formatFloodPrediction
    simp [h]
  all_goals exact jsOr_definedNonNull ⟨rfl, rfl⟩

/-- C2 (witness). -/
theorem formatFloodPrediction_total_on_truthy_witness :
    ∃ r, formatFloodPrediction (.vObj [("ward_code", .vStr "A")])
        "2024-06-01T00:00:00Z" = some r ∧
      definedNonNull r.riskZone ∧ definedNonNull r.riskLevel ∧
      definedNonNull r.willFlood ∧ definedNonNull r.riskProbabilities ∧
      definedNonNull r.bayesianProbability ∧ definedNonNull r.highRisk ∧
      definedNonNull r.confidence ∧ definedNonNull r.timestamp ∧
      definedNonNull r.weatherData :=
  formatFloodPrediction_total_on_truthy (.vObj [("ward_code", .vStr "A")])
    "2024-06-01T00:00:00Z" rfl

/-- C9 (counterexample): on a truthy raw input with no timestamp field,
normalizing at two different times yields different outputs — the missing
timestamp is defaulted to the current time, not passed through. -/
theorem formatFloodPrediction_time_dependent :
    formatFloodPrediction (.vObj [("ward_code", .vStr "A")])
        "2024-01-01T00:00:00Z" ≠
      formatFloodPrediction (.vObj [("ward_code", .vStr "A")])
        "2024-01-02T00:00:00Z" := by
  intro h
  have h1 := congrArg (Option.map Formatted.timestamp) h
  have e1 : Option.map Formatted.timestamp
      (formatFloodPrediction (.vObj [("ward_code", .vStr "A")])
        "2024-01-01T00:00:00Z") = some (.vStr "2024-01-01T00:00:00Z") := rfl
  have e2 : Option.map Formatted.timestamp
      (formatFloodPrediction (.vObj [("ward_code", .vStr "A")])
        "2024-01-02T00:00:00Z") = some (.vStr "2024-01-02T00:00:00Z") := rfl
  rw [e1, e2] at h1
  injection h1 with h2
  injection h2 with h3
  exact absurd h3 (by decide)

/-- C9 (amended): the normalization function is deterministic on every
input whose own timestamp field is truthy (and on every falsy input); only
when the input timestamp is absent or falsy does the output depend on the
current time, because the timestamp is then defaulted to
`new Date().toISOString()`. -/
theorem formatFloodPrediction_deterministic (p : JsVal) (n1 n2 : String)
    (h : (p.getProp "timestamp").truthy = true) :
    formatFloodPrediction p n1 = formatFloodPrediction p n2 := by
  unfold formatFloodPrediction
  by_cases hp : p.truthy = true
  · simp [hp, formatRecord, jsOr, h]
  · simp [hp]

/-- C9 (witness). -/
theorem formatFloodPrediction_deterministic_witness :
    ((JsVal.vObj [("timestamp", .vStr "2024-07-01T10:00:00Z")]).getProp
        "timestamp").truthy = true ∧
    formatFloodPrediction (.vObj [("timestamp", .vStr "2024-07-01T10:00:00Z")])
        "2025-01-01T00:00:00Z" =
      formatFloodPrediction (.vObj [("timestamp", .vStr "2024-07-01T10:00:00Z")])
        "2025-02-02T00:00:00Z" :=
  ⟨by decide,
   formatFloodPrediction_deterministic
     (.vObj [("timestamp", .vStr "2024-07-01T10:00:00Z")])
     "2025-01-01T00:00:00Z" "2025-02-02T00:00:00Z" (by decide)⟩

/-- C4 (counterexample): at probability 0.75 the claim requires category
Critical at every derivation site, but the bayesian-network risk-level
derivation inlined in the MapComponent click handler yields "High". -/
theorem bayesianRiskLevel_not_critical :
    (buildEnhancedPrediction
        (.vObj [("bayesian_probability", jn (3/4))])).bayesianRiskLevel =
      "High" ∧
    getRiskLevel (3/4) = "Critical" ∧ ("High" : String) ≠ "Critical" := by
  refine ⟨?_, ?_, by decide⟩
  · show (if jsGtQ (jsOr (jn (3/4)) (jn 0)) (7/10) then "High"
      else if jsGtQ (jsOr (jn (3/4)) (jn 0)) (3/10) then "Medium"
      else "Low") = "High"
    norm_num [jsOr, jn, JsVal.truthy, jsGtQ, JsVal.toNumber]
  · norm_num [getRiskLevel]

/-- C4 (amended): `getRiskLevel` realizes exactly the claimed mapping —
Critical iff p ≥ 0.7, High iff 0.3 ≤ p < 0.7, Medium iff 0.1 ≤ p < 0.3,
Low iff p < 0.1 — but the bayesian-network derivation inlined in the
MapComponent click handler instead uses strict thresholds and the labels
High/Medium/Low (`> 0.7 → High`, `> 0.3 → Medium`, else Low), defaulting
an absent probability to 0 and hence to Low. -/
theorem getRiskLevel_tiers (p : ℚ) :
    (getRiskLevel p = "Critical" ↔ 7/10 ≤ p) ∧
    (getRiskLevel p = "High" ↔ 3/10 ≤ p ∧ p < 7/10) ∧
    (getRiskLevel p = "Medium" ↔ 1/10 ≤ p ∧ p < 3/10) ∧
    (getRiskLevel p = "Low" ↔ p < 1/10) ∧
    getRiskLevel (3/4) = "Critical" ∧ getRiskLevel (1/2) = "High" ∧
    getRiskLevel (1/5) = "Medium" ∧ getRiskLevel (1/20) = "Low" ∧
    ((buildEnhancedPrediction
        (.vObj [("bayesian_probability", jn p)])).bayesianRiskLevel =
      if 7/10 < p then "High" else if 3/10 < p then "Medium" else "Low") ∧
    (buildEnhancedPrediction (.vObj [])).bayesianRiskLevel = "Low" := by
  have hs1 : ("High" : String) ≠ "Critical" := by decide
  have hs2 : ("Medium" : String) ≠ "Critical" := by decide
  have hs3 : ("Low" : String) ≠ "Critical" := by decide
  have hs4 : ("Critical" : String) ≠ "High" := by decide
  have hs5 : ("Medium" : String) ≠ "High" := by decide
  have hs6 : ("Low" : String) ≠ "High" := by decide
  have hs7 : ("Critical" : String) ≠ "Medium" := by decide
  have hs8 : ("High" : String) ≠ "Medium" := by decide
  have hs9 : ("Low" : String) ≠ "Medium" := by decide
  have hs10 : ("Critical" : String) ≠ "Low" := by decide
  have hs11 : ("High" : String) ≠ "Low" := by decide
  have hs12 : ("Medium" : String) ≠ "Low" := by decide
  refine ⟨?_, ?_, ?_, ?_, by norm_num [getRiskLevel],
    by norm_num [getRiskLevel], by norm_num [getRiskLevel],
    by norm_num [getRiskLevel], ?_, ?_⟩
  · unfold getRiskLevel
    split_ifs with h1 h2 h3
    · exact iff_of_true rfl h1
    · exact iff_of_false hs1 h1
    · exact iff_of_false hs2 h1
    · exact iff_of_false hs3 h1
  · unfold getRiskLevel
    split_ifs with h1 h2 h3
    · exact iff_of_false hs4 (fun hc => by linarith [hc.2])
    · exact iff_of_true rfl ⟨h2, not_le.mp h1⟩
    · exact iff_of_false hs5 (fun hc => h2 hc.1)
    · exact iff_of_false hs6 (fun hc => h2 hc.1)
  · unfold getRiskLevel
    split_ifs with h1 h2 h3
    · exact iff_of_false hs7 (fun hc => by linarith [hc.2])
    · exact iff_of_false hs8 (fun hc => by linarith [hc.2])
    · exact iff_of_true rfl ⟨h3, not_le.mp h2⟩
    · exact iff_of_false hs9 (fun hc => h3 hc.1)
  · unfold getRiskLevel
    split_ifs with h1 h2 h3
    · exact iff_of_false hs10 (fun hc => by linarith)
    · exact iff_of_false hs11 (fun hc => by linarith)
    · exact iff_of_false hs12 (fun hc => by linarith)
    · exact iff_of_true rfl (not_le.mp h3)
  · show (if jsGtQ (jsOr (jn p) (jn 0)) (7/10) then "High"
      else if jsGtQ (jsOr (jn p) (jn 0)) (3/10) then "Medium"
      else "Low") = _
    by_cases hp : p = 0
    · subst hp
      norm_num [jsOr, jn, JsVal.truthy, jsGtQ, JsVal.toNumber]
    · have hOr : jsOr (jn p) (jn 0) = jn p := by
        simp [jsOr, jn, JsVal.truthy, hp]
      rw [hOr]
      simp [jsGtQ, jn, JsVal.toNumber]
  · show (if jsGtQ (jsOr ((JsVal.vObj []).getProp "bayesian_probability") (jn 0))
        (7/10) then "High"
      else if jsGtQ (jsOr ((JsVal.vObj []).getProp "bayesian_probability") (jn 0))
        (3/10) then "Medium"
      else "Low") = "Low"
    norm_num [jsOr, jn, JsVal.truthy, jsGtQ, JsVal.toNumber, JsVal.getProp]

/-- C5 (counterexample): a 400 response from the ward-prediction endpoint
is rethrown raw by `getWardFloodPrediction` — an untranslated transport
exception leaves the API client. -/
theorem getWardFloodPrediction_raw_on_400 :
    (getWardFloodPredictionCatch "H/E"
        (.response 400 "Invalid ward code" "")).isTranslated = false ∧
    getWardFloodPredictionCatch "H/E" (.response 400 "Invalid ward code" "") =
      .raw (.response 400 "Invalid ward code" "") := by
  exact ⟨rfl, rfl⟩

/-- Status of a response failure, `none` for non-response failures. -/
def respStatus : AxiosFailure → Option ℕ
  | .response s _ _ => some s
  | _ => none

/-- C5 (amended): `predictFloodRisk` translates every failure into a
message of the taxonomy, but `getWardFloodPrediction` translates only the
statuses 503/404/500 and `getAllWardsFloodPrediction` only 503; every
other failure (other statuses, missing response, setup errors) leaves
those clients as the raw transport exception. -/
theorem apiClient_error_translation (e : AxiosFailure) (w : String) :
    (predictFloodRiskCatch e).isTranslated = true ∧
    ((getWardFloodPredictionCatch w e).isTranslated = true ↔
      respStatus e = some 503 ∨ respStatus e = some 404 ∨
        respStatus e = some 500) ∧
    ((getAllWardsFloodPredictionCatch e).isTranslated = true ↔
      respStatus e = some 503) := by
  refine ⟨?_, ?_, ?_⟩
  · cases e with
    | response s d m =>
      simp only [predictFloodRiskCatch]
      split_ifs <;> rfl
    | request => rfl
    | setup m => rfl
  · cases e with
    | response s d m =>
      simp only [getWardFloodPredictionCatch, respStatus]
      split_ifs with h1 h2 h3 <;>
        simp_all [ThrownError.isTranslated]
    | request => simp [getWardFloodPredictionCatch, respStatus,
        ThrownError.isTranslated]
    | setup m => simp [getWardFloodPredictionCatch, respStatus,
        ThrownError.isTranslated]
  · cases e with
    | response s d m =>
      simp only [getAllWardsFloodPredictionCatch, respStatus]
      split_ifs with h1 <;> simp_all [ThrownError.isTranslated]
    | request => simp [getAllWardsFloodPredictionCatch, respStatus,
        ThrownError.isTranslated]
    | setup m => simp [getAllWardsFloodPredictionCatch, respStatus,
        ThrownError.isTranslated]

/-- C6 (counterexample): the value `0` is a given (non-null) rainfall
argument that is not a 15-value array, yet `predictFloodRiskWithWeather`
issues its HTTP request for it without any validation failure, because the
series is validated only inside `if (rainfallData)` and `0` is falsy. -/
theorem predictFloodRiskWithWeather_skips_validation :
    jn 0 ≠ JsVal.vNull ∧ isRainfallArray15 (jn 0) = false ∧
    startRequests (predictFloodRiskWithWeatherStart (jn 0)) =
      [.post "/predict-with-weather"] := by
  refine ⟨?_, rfl, rfl⟩
  intro h
  simp [jn] at h

/-- C6 (amended): for every input that is not an array of exactly 15
values, `predictFloodRisk` and `predictFloodRiskSimple` throw the
validation error with no request issued, and so does
`predictFloodRiskWithWeather` for truthy inputs; a falsy rainfall argument
(null, but also 0, "", false, NaN) skips validation there and the request
is issued without rainfall data.  Each function issues at most one
request per call (no automatic retry). -/
theorem rainfall15_validation (d : JsVal) :
    (isRainfallArray15 d = false →
      predictFloodRiskStart d =
        .error ("Request failed: " ++ rainfallLengthMsg) ∧
      startRequests (predictFloodRiskStart d) = [] ∧
      predictFloodRiskSimpleStart d = .error rainfallLengthMsg ∧
      startRequests (predictFloodRiskSimpleStart d) = []) ∧
    (d.truthy = true → isRainfallArray15 d = false →
      predictFloodRiskWithWeatherStart d =
        .error ("Request failed: " ++ rainfallLengthMsg) ∧
      startRequests (predictFloodRiskWithWeatherStart d) = []) ∧
    (d.truthy = false →
      predictFloodRiskWithWeatherStart d = .ok (.post "/predict-with-weather")) ∧
    (startRequests (predictFloodRiskStart d)).length ≤ 1 ∧
    (startRequests (predictFloodRiskSimpleStart d)).length ≤ 1 ∧
    (startRequests (predictFloodRiskWithWeatherStart d)).length ≤ 1 := by
  refine ⟨?_, ?_, ?_, ?_, ?_, ?_⟩
  · intro h
    simp [predictFloodRiskStart, predictFloodRiskSimpleStart, h, startRequests]
  · intro ht h
    simp [predictFloodRiskWithWeatherStart, ht, h, startRequests]
  · intro ht
    simp [predictFloodRiskWithWeatherStart, ht]
  · unfold predictFloodRiskStart startRequests
    split_ifs <;> simp
  · unfold predictFloodRiskSimpleStart startRequests
    split_ifs <;> simp
  · unfold predictFloodRiskWithWeatherStart startRequests
    split_ifs <;> simp

/-- C6 (witness). -/
theorem rainfall15_validation_witness :
    isRainfallArray15 (.vArr [jn 1, jn 2]) = false ∧
    startRequests (predictFloodRiskStart (.vArr [jn 1, jn 2])) = [] ∧
    JsVal.truthy .vNull = false ∧
    predictFloodRiskWithWeatherStart .vNull = .ok (.post "/predict-with-weather") :=
  ⟨rfl, ((rainfall15_validation (.vArr [jn 1, jn 2])).1 rfl).2.1, rfl,
    (rainfall15_validation .vNull).2.2.1 rfl⟩

/-- C1 (violation at a concrete trace): after `click A`, `click B` issued
before A's fetch resolves, and the late resolution of A's fetch, the
prediction map HAS an entry for A — the stale result was committed rather
than discarded, because the click-handler continuation performs no
request-identifier check.  The selection does reflect B only. -/
theorem staleResponse_committed :
    ((runApp staleTrace).predictions "Colaba").isSome = true ∧
    (runApp staleTrace).selectedWard = some "Bandra West" ∧
    initialAppState.predictions "Colaba" = none := by
  refine ⟨?_, rfl, rfl⟩
  rfl

/-- C3 (counterexample): selecting ward "H/E" in the Dashboard triggers
three requests to the ward-prediction endpoint and two to the weather
endpoint — not one of each — because MapComponent, FloodPredictionPanel
and WardWeatherDetails each fetch independently. -/
theorem selectWard_request_counts :
    (selectWardRequests "H/E" "H/E").countP isWardPredictionReq = 3 ∧
    (selectWardRequests "H/E" "H/E").countP isWeatherCurrentReq = 2 ∧
    (3 : ℕ) ≠ 1 := by
  exact ⟨by decide, by decide, by decide⟩

/-- C3 (amended): selecting ward "H/E" triggers three ward-prediction
requests and two weather requests (one pair per fetching component); on
the scenario response (`flood_risk_level = 2`, probability `0.82`) the
record committed by the panel has numeric risk level 2 — rendered "High",
not any "Critical" category — `willFlood = false` because the response
carries no `will_flood` flag, and the map entry's risk level is "high",
filled with `#ea4335`, which is the very color the palette also assigns
to "critical". -/
theorem selectWard_endToEnd :
    (selectWardRequests "H/E" "H/E").countP isWardPredictionReq = 3 ∧
    (selectWardRequests "H/E" "H/E").countP isWeatherCurrentReq = 2 ∧
    (∃ r, formatFloodPrediction scenResponse "2024-07-01T10:00:01Z" = some r ∧
      r.riskLevel = jn 2 ∧ r.willFlood = .vBool false ∧
      r.bayesianProbability = jn (41/50)) ∧
    (buildEnhancedPrediction scenResponse).riskLevel = "high" ∧
    wardFillColor (some (buildEnhancedPrediction scenResponse)) = "#ea4335" ∧
    mcGetRiskColor (some "critical") = "#ea4335" ∧
    getFloodRiskColor (jn 2) = "#FF0000" ∧
    getRiskColor (some "critical") = "#FF0000" := by
  have htr : JsVal.truthy (jn (41/50)) = true := by
    simp only [jn, JsVal.truthy, ne_eq, decide_eq_true_eq]
    norm_num
  refine ⟨by decide, by decide, ⟨formatRecord scenResponse
    "2024-07-01T10:00:01Z", rfl, rfl, rfl, ?_⟩, rfl, rfl, rfl, rfl, rfl⟩
  show jsOr (jn (41/50)) (jn 0) = jn (41/50)
  unfold jsOr
  rw [htr]
  simp

/-- The demo ward-prediction map holding one analyzed ward. -/
def demoMapBefore : String → Option JsVal :=
  fun k => if k = "A" then some (.vObj [("risk_level", .vStr "High")]) else none

/-- C7 (counterexample): the Clear Results button applied to a map holding
an entry for ward "A" yields a map with no entry for "A" — the domain of
the region-to-prediction map shrinks to empty. -/
theorem clearResults_removes_entries :
    demoMapBefore "A" ≠ none ∧ clearResults demoMapBefore "A" = none := by
  exact ⟨by simp [demoMapBefore], rfl⟩

/-- C7 (amended): the per-ward commits of the MapComponent click handler
and the Dashboard `onPredictionUpdate` only add or overwrite entries
(every existing key stays present), but App's `loadAllPredictions`
replaces the whole map with the freshly formatted one and the WardMapDemo
Clear Results button empties its map, so the domain of a
region-to-prediction map can shrink during a session. -/
theorem predictionMap_operations {V : Type} (w k : String) (v : V)
    (m fresh : String → Option V) :
    (m k ≠ none → commitWardPrediction w v m k ≠ none) ∧
    commitWardPrediction w v m w = some v ∧
    (k ≠ w → commitWardPrediction w v m k = m k) ∧
    clearResults m k = none ∧
    replacePredictions fresh m k = fresh k := by
  refine ⟨?_, ?_, ?_, rfl, rfl⟩
  · intro h
    unfold commitWardPrediction
    split_ifs with hw
    · simp
    · exact h
  · simp [commitWardPrediction]
  · intro hk
    simp [commitWardPrediction, hk]

/-- C7 (witness). -/
theorem predictionMap_operations_witness :
    commitWardPrediction "B" (JsVal.vObj []) demoMapBefore "A" ≠ none ∧
    clearResults demoMapBefore "A" = none :=
  ⟨(predictionMap_operations "B" "A" (JsVal.vObj []) demoMapBefore
      demoMapBefore).1 (by simp [demoMapBefore]),
   (predictionMap_operations "B" "A" (JsVal.vObj []) demoMapBefore
      demoMapBefore).2.2.2.1⟩

theorem statsStep_lowRisk (a : StatsAcc) (p : StatsEntry) :
    (statsStep a p).lowRisk =
      if p.riskLevel = 0 then a.lowRisk + 1 else a.lowRisk := by
  unfold statsStep
  split_ifs <;> simp_all

theorem statsStep_mediumRisk (a : StatsAcc) (p : StatsEntry) :
    (statsStep a p).mediumRisk =
      if p.riskLevel = 1 then a.mediumRisk + 1 else a.mediumRisk := by
  unfold statsStep
  split_ifs <;> simp_all

theorem statsStep_highRisk (a : StatsAcc) (p : StatsEntry) :
    (statsStep a p).highRisk =
      if p.riskLevel = 2 then a.highRisk + 1 else a.highRisk := by
  unfold statsStep
  split_ifs <;> simp_all

theorem statsStep_floodExpected (a : StatsAcc) (p : StatsEntry) :
    (statsStep a p).floodExpected =
      if p.willFlood then a.floodExpected + 1 else a.floodExpected := by
  unfold statsStep
  split_ifs <;> simp_all

theorem statsStep_probSum (a : StatsAcc) (p : StatsEntry) :
    (statsStep a p).probSum = a.probSum + p.bayesianProbability := by
  unfold statsStep
  split_ifs <;> rfl

theorem statsFold_lowRisk (l : List StatsEntry) (a : StatsAcc) :
    (l.foldl statsStep a).lowRisk =
      a.lowRisk + l.countP (fun p => decide (p.riskLevel = 0)) := by
  induction l generalizing a with
  | nil => simp
  | cons p l ih =>
    rw [List.foldl_cons, ih, statsStep_lowRisk, List.countP_cons]
    simp only [decide_eq_true_eq]
    split_ifs with h <;> omega

theorem statsFold_mediumRisk (l : List StatsEntry) (a : StatsAcc) :
    (l.foldl statsStep a).mediumRisk =
      a.mediumRisk + l.countP (fun p => decide (p.riskLevel = 1)) := by
  induction l generalizing a with
  | nil => simp
  | cons p l ih =>
    rw [List.foldl_cons, ih, statsStep_mediumRisk, List.countP_cons]
    simp only [decide_eq_true_eq]
    split_ifs with h <;> omega

theorem statsFold_highRisk (l : List StatsEntry) (a : StatsAcc) :
    (l.foldl statsStep a).highRisk =
      a.highRisk + l.countP (fun p => decide (p.riskLevel = 2)) := by
  induction l generalizing a with
  | nil => simp
  | cons p l ih =>
    rw [List.foldl_cons, ih, statsStep_highRisk, List.countP_cons]
    simp only [decide_eq_true_eq]
    split_ifs with h <;> omega

theorem statsFold_floodExpected (l : List StatsEntry) (a : StatsAcc) :
    (l.foldl statsStep a).floodExpected =
      a.floodExpected + l.countP (fun p => p.willFlood) := by
  induction l generalizing a with
  | nil => simp
  | cons p l ih =>
    rw [List.foldl_cons, ih, statsStep_floodExpected]
    simp only [List.countP_cons]
    split_ifs with h <;> omega

theorem statsFold_probSum (l : List StatsEntry) (a : StatsAcc) :
    (l.foldl statsStep a).probSum =
      a.probSum + (l.map StatsEntry.bayesianProbability).sum := by
  induction l generalizing a with
  | nil => simp
  | cons p l ih =>
    rw [List.foldl_cons, ih, statsStep_probSum]
    simp only [List.map_cons, List.sum_cons]
    ring

/-- C8 (counterexample): an analyzed region whose stored risk level is `3`
is counted in no reported risk-category bucket (the switch drops every
level outside 0/1/2 and no Critical count exists), so the reported
category counts do not cover the analyzed regions as the claim requires. -/
theorem calculateStats_no_critical_bucket :
    (calculateStats [⟨3, false, 1/2⟩]).totalWards = 1 ∧
    (calculateStats [⟨3, false, 1/2⟩]).lowRisk +
      (calculateStats [⟨3, false, 1/2⟩]).mediumRisk +
      (calculateStats [⟨3, false, 1/2⟩]).highRisk = 0 := by
  exact ⟨rfl, rfl⟩

/-- C8 (amended): the stats view reports the number of analyzed regions,
counts for the categories Low/Medium/High (matching stored Random-Forest
risk levels 0/1/2; there is no Critical bucket and other levels are
dropped), the count of regions with `willFlood`, and the arithmetic mean
of the stored probabilities; in particular the scenario {Low, High, High}
yields Low 1, Medium 0, High 2 and mean `(a+b+c)/3`. -/
theorem calculateStats_correct (l : List StatsEntry) (w1 w2 w3 : Bool)
    (a b c : ℚ) :
    (calculateStats l).totalWards = l.length ∧
    (calculateStats l).lowRisk = l.countP (fun p => decide (p.riskLevel = 0)) ∧
    (calculateStats l).mediumRisk =
      l.countP (fun p => decide (p.riskLevel = 1)) ∧
    (calculateStats l).highRisk = l.countP (fun p => decide (p.riskLevel = 2)) ∧
    (calculateStats l).floodExpected = l.countP (fun p => p.willFlood) ∧
    (l ≠ [] → (calculateStats l).avgBayesianProb =
      (l.map StatsEntry.bayesianProbability).sum / l.length) ∧
    (calculateStats [⟨0, w1, a⟩, ⟨2, w2, b⟩, ⟨2, w3, c⟩]).lowRisk = 1 ∧
    (calculateStats [⟨0, w1, a⟩, ⟨2, w2, b⟩, ⟨2, w3, c⟩]).mediumRisk = 0 ∧
    (calculateStats [⟨0, w1, a⟩, ⟨2, w2, b⟩, ⟨2, w3, c⟩]).highRisk = 2 ∧
    (calculateStats [⟨0, w1, a⟩, ⟨2, w2, b⟩, ⟨2, w3, c⟩]).avgBayesianProb =
      (a + b + c) / 3 := by
  refine ⟨rfl, ?_, ?_, ?_, ?_, ?_, ?_, ?_, ?_, ?_⟩
  · simpa using statsFold_lowRisk l ⟨0, 0, 0, 0, 0⟩
  · simpa using statsFold_mediumRisk l ⟨0, 0, 0, 0, 0⟩
  · simpa using statsFold_highRisk l ⟨0, 0, 0, 0, 0⟩
  · simpa using statsFold_floodExpected l ⟨0, 0, 0, 0, 0⟩
  · intro hl
    have hlen : 0 < l.length := List.length_pos.mpr hl
    have hs := statsFold_probSum l ⟨0, 0, 0, 0, 0⟩
    show (if 0 < l.length then _ / _ else 0) = _
    rw [if_pos hlen]
    rw [hs]
    norm_num
  · have := statsFold_lowRisk [⟨0, w1, a⟩, ⟨2, w2, b⟩, ⟨2, w3, c⟩]
      ⟨0, 0, 0, 0, 0⟩
    simpa [List.countP_cons] using this
  · have := statsFold_mediumRisk [⟨0, w1, a⟩, ⟨2, w2, b⟩, ⟨2, w3, c⟩]
      ⟨0, 0, 0, 0, 0⟩
    simpa [List.countP_cons] using this
  · have := statsFold_highRisk [⟨0, w1, a⟩, ⟨2, w2, b⟩, ⟨2, w3, c⟩]
      ⟨0, 0, 0, 0, 0⟩
    simpa [List.countP_cons] using this
  · have hs := statsFold_probSum [⟨0, w1, a⟩, ⟨2, w2, b⟩, ⟨2, w3, c⟩]
      ⟨0, 0, 0, 0, 0⟩
    show (if 0 < ([⟨0, w1, a⟩, ⟨2, w2, b⟩, ⟨2, w3, c⟩] :
        List StatsEntry).length then _ / _ else 0) = _
    rw [if_pos (by simp)]
    rw [hs]
    push_cast
    ring_nf
    norm_num
    ring

/-- C8 (witness). -/
theorem calculateStats_correct_witness :
    (calculateStats [⟨0, false, 1/4⟩]).avgBayesianProb =
      (([⟨0, false, 1/4⟩] : List StatsEntry).map
        StatsEntry.bayesianProbability).sum / 1 :=
  by simpa using
    (calculateStats_correct [⟨0, false, 1/4⟩] false false false 0 0
      0).2.2.2.2.2.1 (by simp)

/-- C10 (counterexample): a geometry whose outer ring is present but empty
does not make the click handler throw — `calculateCentroid` yields NaN
coordinates and the handler proceeds — so the handler is total on a
feature whose outer ring is empty, contrary to the claim that it is total
only for non-empty outer rings. -/
theorem clickCentroid_empty_ring_total :
    clickCentroidAccess (some [([] : List (ℚ × ℚ))]) = .ok (.nan, .nan) ∧
    ([] : List (ℚ × ℚ)).length = 0 := by
  exact ⟨rfl, rfl⟩

/-- C10 (amended): `calculateCentroid` returns the componentwise
arithmetic mean of the outer ring for every non-empty outer ring, `null`
when the coordinates array or its first ring is absent, and NaN
coordinates for a present-but-empty outer ring; the click handler throws
exactly on the `null` centroid (absent coordinates/first ring), so it is
total precisely for features whose first ring is present — empty rings
included, then with NaN coordinates. -/
theorem calculateCentroid_spec (ring : List (ℚ × ℚ))
    (rest : List (List (ℚ × ℚ))) (g : Option (List (List (ℚ × ℚ)))) :
    calculateCentroid none = none ∧
    calculateCentroid (some []) = none ∧
    (ring ≠ [] → calculateCentroid (some (ring :: rest)) =
      some (.val ((ring.map Prod.fst).sum / ring.length),
            .val ((ring.map Prod.snd).sum / ring.length))) ∧
    calculateCentroid (some ([] :: rest)) = some (.nan, .nan) ∧
    ((∃ c, clickCentroidAccess g = .ok c) ↔ calculateCentroid g ≠ none) := by
  refine ⟨rfl, rfl, ?_, rfl, ?_⟩
  · intro h
    have hlen : ring.length ≠ 0 := by simpa using h
    simp [calculateCentroid, jsDiv, hlen]
  · unfold clickCentroidAccess
    cases hc : calculateCentroid g with
    | none => simp
    | some c => simp

/-- C10 (witness). -/
theorem calculateCentroid_spec_witness :
    calculateCentroid (some [[((1 : ℚ), (2 : ℚ)), (3, 4)]]) =
      some (.val 2, .val 3) := by
  have h := (calculateCentroid_spec [((1 : ℚ), (2 : ℚ)), (3, 4)] [] none).2.2.1
    (by simp)
  norm_num at h
  exact h

end SmartFlood
